import Mathlib

/-!
Verification of the focus-aware text delivery subsystem of `system_handler.py`
(class `SystemHandler`). The Python instance state is embedded as a record
`SHState` together with the externally observable effects (clipboard contents,
injected keystrokes, invoked callbacks). Every OS or accessibility query is an
oracle field of an environment record (`OSEnv`, `UIAEnv`). The body of one
iteration of the background poll loop `_track_focus_loop` is a step function
in the `Except` monad, so that a Python exception escaping the loop body
(killing the tracker thread) appears as `Except.error ()`.

Python truthiness conventions used by the source are embedded explicitly:
an `int` handle is falsy iff it is `0`; `None` and the empty string are both
falsy, so an optional text argument is modelled as a `String` where the empty
string stands for both `""` and `None`; `Option` models `is None` checks and
optional fields.
-/

namespace JP

/-- Keystroke events injected by `_do_paste`: the Ctrl+V chord and the Enter
key. -/
inductive KeyEvent where
  | pasteChord
  | enter
deriving DecidableEq, Repr

/-- Outcome of `paste_text` (the spec's `deliver`): `Delivered` when the
immediate paste path ran, `Deferred` when the text was queued. The Python
function returns `None` on every path; this value records which branch ran,
and the embedding returns `none` for the empty-text early return, where no
outcome-producing step runs. -/
inductive DeliveryOutcome where
  | Delivered
  | Deferred
deriving DecidableEq, Repr

/-- State of a `SystemHandler` instance plus the externally observable
effects. `myWindowHwnds` models the Python set `_my_window_hwnds` as a
duplicate-free list; callbacks are modelled by numeric identifiers, and
`invokedCallbacks` logs the callbacks that were actually invoked. -/
structure SHState where
  lastActiveWindow : Option Nat
  myWindowHwnds : List Nat
  pendingPasteText : Option String
  pendingPasteCallback : Option Nat
  clipboard : Option String
  keystrokes : List KeyEvent
  invokedCallbacks : List Nat
deriving DecidableEq, Repr

/-- Data the UIA probe reads from a control's TextPattern: whether
`GetSelection()` returned a non-empty selection list, the unit count returned
by `Move(TextUnit.Character, 1)` on the cloned caret range, and the text read
after `ExpandToEnclosingUnit` (the character the move passed over). -/
structure TextPatternInfo where
  hasSelection : Bool
  moved : Int
  peekText : String
deriving DecidableEq, Repr

/-- Environment for the `uiautomation` accessibility probe. `probeRaises`
models an exception anywhere inside the probe body; `focused` is whether
`GetFocusedControl()` returned a control; `textPattern` is present iff the
control supports TextPattern; `valuePattern` is the ValuePattern's value
string when that pattern is supported; `editControl` is whether the control
type name is `EditControl` or `DocumentControl`. -/
structure UIAEnv where
  probeRaises : Bool
  focused : Bool
  textPattern : Option TextPatternInfo
  valuePattern : Option String
  editControl : Bool
deriving DecidableEq, Repr

/-- Environment of OS oracles for one poll-loop iteration or one delivery
call. The `...Raises` flags model the corresponding call raising an
exception; `fgHwnd` is the result of `win32gui.GetForegroundWindow()` when it
does not raise (`0` = no foreground window); `visible` is
`win32gui.IsWindowVisible`; `isWindow` is `win32gui.IsWindow`; `pasteRaises`
models the body of `_do_paste`'s `try` block raising at its start (e.g. the
`pyperclip` import failing); `callbackRaises` models the pending-paste
callback raising when invoked. -/
structure OSEnv where
  fgRaises : Bool
  fgHwnd : Nat
  visRaises : Bool
  visible : Nat → Bool
  isWindow : Nat → Bool
  setFgRaises : Bool
  pasteRaises : Bool
  callbackRaises : Bool
  uia : UIAEnv

/-- Python `str.isspace()`: true iff the string is non-empty and every
character is whitespace. -/
def pyIsSpace (s : String) : Bool :=
  !s.isEmpty && s.toList.all Char.isWhitespace

/-- Embedding of `SystemHandler._check_caret_at_end_uia`. Returns
`some true` when the caret is at the end (period allowed), `some false` when
it is not, `none` (Python `None`) when the probe cannot tell. The debug-log
file writes of the source have no effect on any modelled state and are
dropped. The whole body sits inside `try ... except: return None`, modelled
by `probeRaises`. -/
def check_caret_at_end_uia (env : UIAEnv) : Option Bool :=
  if env.probeRaises then none
  else if !env.focused then none
  else
    match env.textPattern with
    | some tp =>
      -- branch A: TextPattern; `if not selections: return None`
      if !tp.hasSelection then none
      else if tp.moved = 0 then some true
      else
        -- `if not peek_char or peek_char.isspace()`
        if tp.peekText.isEmpty || pyIsSpace tp.peekText then some true
        else some false
    | none =>
      -- branch B: ValuePattern; a non-empty value falls through to `return None`
      match env.valuePattern with
      | some v => if v.isEmpty then some true else none
      | none => none

/-- Embedding of `SystemHandler.is_likely_insertion`. The source's `threshold`
parameter is never used by the body and is omitted. The body is
`try: r := _check_caret_at_end_uia(); if r is not None: return not r` followed
by a fallback `return False`; `_check_caret_at_end_uia` is total here (its own
`try` catches everything), so the outer `except: pass` is unreachable. -/
def is_likely_insertion (env : UIAEnv) : Bool :=
  match check_caret_at_end_uia env with
  | some isAtEnd => !isAtEnd
  | none => false

/-- Embedding of `SystemHandler.is_text_input_focused`: true iff a control is
focused and it supports TextPattern or ValuePattern or its control type name
is `EditControl`/`DocumentControl`; any exception yields `False`. -/
def is_text_input_focused (env : UIAEnv) : Bool :=
  if env.probeRaises then false
  else if !env.focused then false
  else if env.textPattern.isSome then true
  else if env.valuePattern.isSome then true
  else env.editControl

/-- Embedding of `SystemHandler.add_my_window_handle` (the spec's
`register_self_window`): `if hwnd: self._my_window_hwnds.add(int(hwnd))`.
Python set `add` is idempotent, hence `List.insert`. The logging block has no
modelled effect. -/
def add_my_window_handle (hwnd : Nat) (s : SHState) : SHState :=
  if hwnd ≠ 0 then { s with myWindowHwnds := s.myWindowHwnds.insert hwnd } else s

/-- Embedding of `SystemHandler.get_last_active_window`. -/
def get_last_active_window (s : SHState) : Option Nat :=
  s.lastActiveWindow

/-- Embedding of `SystemHandler.has_target_window`:
`self._last_active_window is not None and win32gui.IsWindow(self._last_active_window)`. -/
def has_target_window (env : OSEnv) (s : SHState) : Bool :=
  match s.lastActiveWindow with
  | some w => env.isWindow w
  | none => false

/-- Embedding of `SystemHandler.restore_focus_to_last_window`: returns `True`
iff `self._last_active_window` is truthy (not `None` and nonzero), still a
window, and `SetForegroundWindow` does not raise (a raise is caught and the
function returns `False`). -/
def restore_focus_to_last_window (env : OSEnv) (s : SHState) : Bool :=
  match s.lastActiveWindow with
  | some w => decide (w ≠ 0) && env.isWindow w && !env.setFgRaises
  | none => false

/-- Embedding of `SystemHandler.set_pending_paste`: unconditionally overwrite
both the pending text and the pending callback. -/
def set_pending_paste (text : String) (callback : Option Nat) (s : SHState) : SHState :=
  { s with pendingPasteText := some text, pendingPasteCallback := callback }

/-- Embedding of `SystemHandler.clear_pending_paste`. -/
def clear_pending_paste (s : SHState) : SHState :=
  { s with pendingPasteText := none, pendingPasteCallback := none }

/-- Embedding of `SystemHandler.copy_to_clipboard`: `if not text: return`,
else `pyperclip.copy(text)`. The clipboard write is modelled as the state
update it performs when it succeeds; the source's `except` branch only prints
an error message. -/
def copy_to_clipboard (text : String) (s : SHState) : SHState :=
  if text.isEmpty then s else { s with clipboard := some text }

/-- Embedding of `SystemHandler._do_paste`: inside a `try` block, write `text`
to the clipboard, inject Ctrl+V, and if `shouldSend` inject Enter. A raise is
caught and only logged; `pasteRaises` models the block raising at its start,
before any effect. The `time.sleep` settle delays have no modelled effect. -/
def do_paste (pasteRaises : Bool) (text : String) (shouldSend : Bool) (s : SHState) : SHState :=
  if pasteRaises then s
  else
    let s1 := { s with clipboard := some text,
                       keystrokes := s.keystrokes ++ [KeyEvent.pasteChord] }
    if shouldSend then { s1 with keystrokes := s1.keystrokes ++ [KeyEvent.enter] }
    else s1

/-- Embedding of `SystemHandler.paste_text` (the spec's `deliver`). The
debug-log file write at the top has no modelled effect. `if not text: return`
is the empty-text early return (outcome `none`). Otherwise attempt to restore
focus; re-validate with `is_text_input_focused` only when restore succeeded;
if either fails, copy to the clipboard, queue the text with no callback
(`set_pending_paste(text)` leaves its `callback` parameter at its default
`None`), and defer; else paste immediately. -/
def paste_text (env : OSEnv) (text : String) (shouldSend : Bool) (s : SHState) :
    SHState × Option DeliveryOutcome :=
  if text.isEmpty then (s, none)
  else
    let restored := restore_focus_to_last_window env s
    let isValidInput := restored && is_text_input_focused env.uia
    if !restored || !isValidInput then
      (set_pending_paste text none (copy_to_clipboard text s), some DeliveryOutcome.Deferred)
    else
      (do_paste env.pasteRaises text shouldSend s, some DeliveryOutcome.Delivered)

/-- Embedding of the callback block inside `_track_focus_loop`:
`if self._pending_paste_callback: try: callback() except: pass; callback = None`
— invoke the callback if one is set (a raise is swallowed and leaves no
invocation record), then clear it. -/
def invoke_pending_callback (callbackRaises : Bool) (s : SHState) : SHState :=
  match s.pendingPasteCallback with
  | some cb =>
    let s1 :=
      if callbackRaises then s
      else { s with invokedCallbacks := s.invokedCallbacks ++ [cb] }
    { s1 with pendingPasteCallback := none }
  | none => s

/-- Embedding of one iteration of `SystemHandler._track_focus_loop`'s body.
`Except.error ()` means an exception escaped the loop body, which terminates
the tracker thread. Structure, in source order:
`hwnd = win32gui.GetForegroundWindow()` (not wrapped — a raise escapes);
`if hwnd and hwnd not in self._my_window_hwnds:`; then, if
`self._pending_paste_text` is truthy (Python: non-`None` and non-empty),
`win32gui.IsWindowVisible(hwnd)` (not wrapped — a raise escapes) gates the
delayed paste: clear the pending text, run
`_do_paste(text, should_send=False)` (which swallows its own exceptions),
then run the callback block; finally, in all cases reached,
`self._last_active_window = hwnd`. The `time.sleep` calls have no modelled
effect. -/
def track_focus_step (env : OSEnv) (s : SHState) : Except Unit SHState :=
  if env.fgRaises then Except.error ()
  else if env.fgHwnd ≠ 0 ∧ env.fgHwnd ∉ s.myWindowHwnds then
    match s.pendingPasteText with
    | some text =>
      if text.isEmpty then
        -- Python: `if self._pending_paste_text:` — an empty pending string is falsy
        Except.ok { s with lastActiveWindow := some env.fgHwnd }
      else if env.visRaises then Except.error ()
      else if env.visible env.fgHwnd then
        Except.ok
          { invoke_pending_callback env.callbackRaises
              (do_paste env.pasteRaises text false
                { s with pendingPasteText := none }) with
            lastActiveWindow := some env.fgHwnd }
      else
        Except.ok { s with lastActiveWindow := some env.fgHwnd }
    | none => Except.ok { s with lastActiveWindow := some env.fgHwnd }
  else Except.ok s

/-- A run of consecutive poll-loop iterations, one environment per iteration;
stops with `Except.error ()` as soon as one iteration's body raises (the
exception kills the tracker thread, so no further iteration runs). -/
def run_loop (envs : List OSEnv) (s : SHState) : Except Unit SHState :=
  match envs with
  | [] => Except.ok s
  | e :: rest =>
    match track_focus_step e s with
    | Except.ok s1 => run_loop rest s1
    | Except.error u => Except.error u

/-- A sequence of `paste_text` calls (the states threaded through, outcomes
discarded), used to state the last-write-wins property over call sequences. -/
def deliver_seq (env : OSEnv) (shouldSend : Bool) (ts : List String) (s : SHState) : SHState :=
  ts.foldl (fun st t => (paste_text env t shouldSend st).fst) s

/-! Concrete test fixtures used by counterexample and witness theorems. -/

/-- A focused control of type `EditControl` exposing neither TextPattern nor
ValuePattern; text-input-capable, with no probe failure. -/
def uiaEdit : UIAEnv :=
  { probeRaises := false, focused := true, textPattern := none,
    valuePattern := none, editControl := true }

/-- An all-cooperative OS environment: foreground window 42, every handle
visible and valid, no OS call raises. -/
def baseEnv : OSEnv :=
  { fgRaises := false, fgHwnd := 42, visRaises := false,
    visible := fun _ => true, isWindow := fun _ => true,
    setFgRaises := false, pasteRaises := false, callbackRaises := false,
    uia := uiaEdit }

/-- Freshly constructed handler state (the `__init__` field values, plus empty
effect logs). -/
def emptyState : SHState :=
  { lastActiveWindow := none, myWindowHwnds := [], pendingPasteText := none,
    pendingPasteCallback := none, clipboard := none, keystrokes := [],
    invokedCallbacks := [] }

/-- State in which external window 42 is already the recorded last active
window and the text "hi" is queued for delayed paste, with no callback. -/
def sSamePend : SHState :=
  { emptyState with lastActiveWindow := some 42, pendingPasteText := some "hi" }

/-- State with a queued text and a queued completion callback. -/
def sPendCb : SHState :=
  { emptyState with pendingPasteText := some "hi", pendingPasteCallback := some 3 }

/-- State whose clipboard already holds unrelated text. -/
def sClipPrior : SHState :=
  { emptyState with clipboard := some "prior" }

/-- State in which external window 42 has been recorded and nothing is
pending. -/
def sTarget42 : SHState :=
  { emptyState with lastActiveWindow := some 42 }

/-- State whose recorded last active window is the (about to be registered)
handle 7. -/
def sLast7 : SHState :=
  { emptyState with lastActiveWindow := some 7 }

/-- Environment whose foreground query returns handle 7. -/
def envFg7 : OSEnv :=
  { baseEnv with fgHwnd := 7 }

/-- Environment whose foreground window 5 is reported neither visible nor a
valid window. -/
def envInvisible5 : OSEnv :=
  { baseEnv with fgHwnd := 5, visible := fun _ => false, isWindow := fun _ => false }

/-- Environment in which `GetForegroundWindow` raises. -/
def envFgRaises : OSEnv :=
  { baseEnv with fgRaises := true }

/-- Environment in which `IsWindowVisible` raises. -/
def envVisRaises : OSEnv :=
  { baseEnv with visRaises := true }

/-- Environment in which the paste internals and the pending callback both
raise. -/
def envInnerRaises : OSEnv :=
  { baseEnv with pasteRaises := true, callbackRaises := true }

/-- A TextPattern control whose caret has a selection and whose forward move
passes over the letter `a`. -/
def uiaPeekA : UIAEnv :=
  { probeRaises := false, focused := true,
    textPattern := some { hasSelection := true, moved := 1, peekText := "a" },
    valuePattern := none, editControl := false }

/-- A control exposing only a ValuePattern whose value is non-empty. -/
def uiaValueAbc : UIAEnv :=
  { probeRaises := false, focused := true, textPattern := none,
    valuePattern := some "abc", editControl := false }

/-! Helper lemmas shared between claim theorems. -/

/-- A string different from the empty string has `isEmpty = false`. -/
theorem isEmpty_false_of_ne (t : String) (h : t ≠ "") : t.isEmpty = false := by
  rcases Bool.eq_false_or_eq_true t.isEmpty with hb | hb
  · exact absurd ((String.isEmpty_iff t).mp hb) h
  · exact hb

/-- `_do_paste` never touches the exclusion set. -/
theorem do_paste_myWindows (p : Bool) (t : String) (sd : Bool) (st : SHState) :
    (do_paste p t sd st).myWindowHwnds = st.myWindowHwnds := by
  cases p <;> cases sd <;> simp [do_paste]

/-- `_do_paste` never touches the pending text. -/
theorem do_paste_pendingText (p : Bool) (t : String) (sd : Bool) (st : SHState) :
    (do_paste p t sd st).pendingPasteText = st.pendingPasteText := by
  cases p <;> cases sd <;> simp [do_paste]

/-- `_do_paste` never touches the pending callback. -/
theorem do_paste_pendingCallback (p : Bool) (t : String) (sd : Bool) (st : SHState) :
    (do_paste p t sd st).pendingPasteCallback = st.pendingPasteCallback := by
  cases p <;> cases sd <;> simp [do_paste]

/-- `_do_paste` never touches the recorded last active window. -/
theorem do_paste_lastActive (p : Bool) (t : String) (sd : Bool) (st : SHState) :
    (do_paste p t sd st).lastActiveWindow = st.lastActiveWindow := by
  cases p <;> cases sd <;> simp [do_paste]

/-- `_do_paste` never invokes callbacks. -/
theorem do_paste_invoked (p : Bool) (t : String) (sd : Bool) (st : SHState) :
    (do_paste p t sd st).invokedCallbacks = st.invokedCallbacks := by
  cases p <;> cases sd <;> simp [do_paste]

/-- Effect of `_do_paste` when its OS calls succeed. -/
theorem do_paste_effects (t : String) (sd : Bool) (st : SHState) :
    do_paste false t sd st =
      { st with clipboard := some t,
                keystrokes := st.keystrokes ++ [KeyEvent.pasteChord] ++
                  (if sd then [KeyEvent.enter] else []) } := by
  cases sd <;> simp [do_paste]

/-- The callback block never touches the exclusion set. -/
theorem invoke_cb_myWindows (cr : Bool) (st : SHState) :
    (invoke_pending_callback cr st).myWindowHwnds = st.myWindowHwnds := by
  unfold invoke_pending_callback
  cases st.pendingPasteCallback <;> cases cr <;> simp

/-- The callback block never touches the pending text. -/
theorem invoke_cb_pendingText (cr : Bool) (st : SHState) :
    (invoke_pending_callback cr st).pendingPasteText = st.pendingPasteText := by
  unfold invoke_pending_callback
  cases st.pendingPasteCallback <;> cases cr <;> simp

/-- The callback block never touches the recorded last active window. -/
theorem invoke_cb_lastActive (cr : Bool) (st : SHState) :
    (invoke_pending_callback cr st).lastActiveWindow = st.lastActiveWindow := by
  unfold invoke_pending_callback
  cases st.pendingPasteCallback <;> cases cr <;> simp

/-- The callback block never touches the clipboard. -/
theorem invoke_cb_clipboard (cr : Bool) (st : SHState) :
    (invoke_pending_callback cr st).clipboard = st.clipboard := by
  unfold invoke_pending_callback
  cases st.pendingPasteCallback <;> cases cr <;> simp

/-- The callback block never injects keystrokes. -/
theorem invoke_cb_keystrokes (cr : Bool) (st : SHState) :
    (invoke_pending_callback cr st).keystrokes = st.keystrokes := by
  unfold invoke_pending_callback
  cases st.pendingPasteCallback <;> cases cr <;> simp

/-- Shape of a successful poll-loop iteration: the exclusion set is never
modified, and `lastActiveWindow` is either carried over unchanged or set to
the observed foreground handle, which is then nonzero and outside the
exclusion set. -/
theorem track_focus_step_ok_cases (env : OSEnv) (s s2 : SHState)
    (h : track_focus_step env s = Except.ok s2) :
    s2.myWindowHwnds = s.myWindowHwnds ∧
    (s2.lastActiveWindow = s.lastActiveWindow ∨
      (s2.lastActiveWindow = some env.fgHwnd ∧ env.fgHwnd ≠ 0 ∧
        env.fgHwnd ∉ s.myWindowHwnds)) := by
  unfold track_focus_step at h
  repeat' split at h
  all_goals try exact Except.noConfusion h
  all_goals rw [Except.ok.injEq] at h
  all_goals subst h
  all_goals refine ⟨by simp [invoke_cb_myWindows, do_paste_myWindows], ?_⟩
  all_goals first
    | exact Or.inl rfl
    | exact Or.inr ⟨rfl,
        ‹env.fgHwnd ≠ 0 ∧ env.fgHwnd ∉ s.myWindowHwnds›.1,
        ‹env.fgHwnd ≠ 0 ∧ env.fgHwnd ∉ s.myWindowHwnds›.2⟩

/-- A poll-loop iteration that finds no queued text injects no keystrokes. -/
theorem track_focus_step_no_fire (env : OSEnv) (s s2 : SHState)
    (hp : s.pendingPasteText = none)
    (h : track_focus_step env s = Except.ok s2) : s2.keystrokes = s.keystrokes := by
  unfold track_focus_step at h
  repeat' split at h
  all_goals try exact Except.noConfusion h
  all_goals try (rw [Except.ok.injEq] at h; subst h; rfl)
  all_goals simp_all

/-- A poll-loop iteration whose foreground query and visibility query do not
raise always completes, and it records the foreground handle as
`last_active_window` exactly when the handle is nonzero and outside the
exclusion set — no further condition is consulted for the recording. -/
theorem step_ok_total (env : OSEnv) (s : SHState) (hfg : env.fgRaises = false)
    (hvis : env.visRaises = false) :
    ∃ s2, track_focus_step env s = Except.ok s2 ∧
      s2.lastActiveWindow =
        (if env.fgHwnd ≠ 0 ∧ env.fgHwnd ∉ s.myWindowHwnds then some env.fgHwnd
         else s.lastActiveWindow) := by
  by_cases hc : env.fgHwnd ≠ 0 ∧ env.fgHwnd ∉ s.myWindowHwnds
  · cases hp : s.pendingPasteText with
    | none =>
      refine ⟨{ s with lastActiveWindow := some env.fgHwnd }, ?_, by simp [hc]⟩
      simp [track_focus_step, hfg, hp, hc]
    | some text =>
      by_cases hemp : text.isEmpty
      · refine ⟨{ s with lastActiveWindow := some env.fgHwnd }, ?_, by simp [hc]⟩
        simp [track_focus_step, hfg, hp, hc, hemp]
      · by_cases hv : env.visible env.fgHwnd
        · refine ⟨{ invoke_pending_callback env.callbackRaises
              (do_paste env.pasteRaises text false
                { s with pendingPasteText := none }) with
              lastActiveWindow := some env.fgHwnd }, ?_, by simp [hc]⟩
          simp [track_focus_step, hfg, hp, hc, hemp, hvis, hv]
        · refine ⟨{ s with lastActiveWindow := some env.fgHwnd }, ?_, by simp [hc]⟩
          simp [track_focus_step, hfg, hp, hc, hemp, hvis, hv]
  · refine ⟨s, ?_, by simp [hc]⟩
    simp [track_focus_step, hfg, hc]

/-- Registered-handle invariant carried through a run of the poll loop: with
`h` in the exclusion set (or `h = 0`, which the loop also never records),
`last_active_window` can read `some h` after the run only if it already did
before it. -/
theorem run_loop_inv (h : Nat) :
    ∀ (envs : List OSEnv) (s s2 : SHState),
      (h ∈ s.myWindowHwnds ∨ h = 0) →
      run_loop envs s = Except.ok s2 →
      s2.lastActiveWindow = some h → s.lastActiveWindow = some h := by
  intro envs
  induction envs with
  | nil =>
    intro s s2 hm hr hl
    unfold run_loop at hr
    rw [Except.ok.injEq] at hr
    subst hr
    exact hl
  | cons e rest ih =>
    intro s s2 hm hr hl
    unfold run_loop at hr
    cases hstep : track_focus_step e s with
    | error u =>
      rw [hstep] at hr
      exact Except.noConfusion hr
    | ok s1 =>
      rw [hstep] at hr
      change run_loop rest s1 = Except.ok s2 at hr
      obtain ⟨hmw, hla⟩ := track_focus_step_ok_cases e s s1 hstep
      have hm1 : h ∈ s1.myWindowHwnds ∨ h = 0 := by rw [hmw]; exact hm
      have hs1 : s1.lastActiveWindow = some h → s.lastActiveWindow = some h := by
        intro hl1
        rcases hla with heq | ⟨hrec, hne0, hnm⟩
        · rw [← heq]
          exact hl1
        · exfalso
          have hfg : e.fgHwnd = h := Option.some.inj (hrec.symm.trans hl1)
          subst hfg
          rcases hm with hmem | h0
          · exact hnm hmem
          · exact hne0 h0
      exact hs1 (ih s1 s2 hm1 hr hl)

/-- C10: a `paste_text` (`deliver`) call or a `copy_to_clipboard`
(`copy_only`) call whose text is empty (or `None`, equally falsy) is a
complete no-op: the state — clipboard, keystrokes, pending slot,
`last_active_window`, callback logs — is returned unchanged and no
outcome-producing step runs (`none` outcome). -/
theorem c10_empty_text_noop (env : OSEnv) (s : SHState) (shouldSend : Bool) :
    paste_text env "" shouldSend s = (s, none) ∧ copy_to_clipboard "" s = s :=
  ⟨rfl, rfl⟩

/-- C2 counterexample: a `deliver` call made with empty (or `None`) text while
`has_target_window()` is false returns no outcome at all — not `Deferred` —
and leaves both the clipboard and the pending slot untouched, so the claim's
universal quantification over all such calls fails at `text = ""`. -/
theorem c2_counterexample :
    has_target_window baseEnv sClipPrior = false ∧
    paste_text baseEnv "" false sClipPrior = (sClipPrior, none) ∧
    sClipPrior.pendingPasteText = none ∧ sClipPrior.clipboard = some "prior" :=
  ⟨rfl, rfl, rfl, rfl⟩

/-- C2 (amended): for every `deliver(text, _)` call with non-empty text made
while `has_target_window()` is false, the call returns `Deferred`, the text is
written to the system clipboard, and the pending slot is set to the text with
no callback. -/
theorem c2_deferred_without_target (env : OSEnv) (s : SHState) (text : String)
    (shouldSend : Bool) (ht : text ≠ "")
    (hnt : has_target_window env s = false) :
    ∃ s2, paste_text env text shouldSend s = (s2, some DeliveryOutcome.Deferred) ∧
      s2.clipboard = some text ∧ s2.pendingPasteText = some text ∧
      s2.pendingPasteCallback = none := by
  have hne : text.isEmpty = false := isEmpty_false_of_ne text ht
  have hres : restore_focus_to_last_window env s = false := by
    unfold restore_focus_to_last_window
    unfold has_target_window at hnt
    cases hl : s.lastActiveWindow with
    | none => rfl
    | some w =>
      rw [hl] at hnt
      simp only [] at hnt
      simp [hnt]
  refine ⟨set_pending_paste text none (copy_to_clipboard text s), ?_, ?_, rfl, rfl⟩
  · simp [paste_text, hne, hres]
  · simp [set_pending_paste, copy_to_clipboard, hne]

/-- C2 witness: concrete instance of the deferred-delivery guarantee on a
fresh handler state. -/
theorem c2_witness :
    ∃ s2, paste_text baseEnv "test" false emptyState = (s2, some DeliveryOutcome.Deferred) ∧
      s2.clipboard = some "test" ∧ s2.pendingPasteText = some "test" ∧
      s2.pendingPasteCallback = none :=
  c2_deferred_without_target baseEnv emptyState "test" false (by decide) rfl

/-- C5: a `deliver(text, should_send_enter)` call with non-empty text in which
the focus restore succeeds and the re-validation finds the focused control
text-input-capable (and the clipboard/keystroke OS calls do not fail) writes
the text to the clipboard, injects a paste key-chord, injects Enter if and
only if `should_send_enter`, leaves the pending slot and the tracker state
untouched, and returns `Delivered`. -/
theorem c5_delivered_path (env : OSEnv) (s : SHState) (text : String)
    (shouldSend : Bool) (ht : text ≠ "")
    (hres : restore_focus_to_last_window env s = true)
    (hval : is_text_input_focused env.uia = true)
    (hpaste : env.pasteRaises = false) :
    ∃ s2, paste_text env text shouldSend s = (s2, some DeliveryOutcome.Delivered) ∧
      s2.clipboard = some text ∧
      s2.keystrokes = s.keystrokes ++ [KeyEvent.pasteChord] ++
        (if shouldSend then [KeyEvent.enter] else []) ∧
      s2.pendingPasteText = s.pendingPasteText ∧
      s2.pendingPasteCallback = s.pendingPasteCallback ∧
      s2.lastActiveWindow = s.lastActiveWindow := by
  have hne : text.isEmpty = false := isEmpty_false_of_ne text ht
  refine ⟨do_paste env.pasteRaises text shouldSend s, ?_, ?_⟩
  · simp [paste_text, hne, hres, hval]
  · rw [hpaste, do_paste_effects]
    cases shouldSend <;> simp

/-- C5 witness: concrete immediate delivery into recorded window 42 with the
Enter key requested. -/
theorem c5_witness :
    restore_focus_to_last_window baseEnv sTarget42 = true ∧
    ∃ s2, paste_text baseEnv "hello" true sTarget42 = (s2, some DeliveryOutcome.Delivered) ∧
      s2.clipboard = some "hello" ∧
      s2.keystrokes = sTarget42.keystrokes ++ [KeyEvent.pasteChord] ++
        (if true then [KeyEvent.enter] else []) ∧
      s2.pendingPasteText = sTarget42.pendingPasteText ∧
      s2.pendingPasteCallback = sTarget42.pendingPasteCallback ∧
      s2.lastActiveWindow = sTarget42.lastActiveWindow :=
  ⟨rfl, c5_delivered_path baseEnv sTarget42 "hello" true (by decide) rfl rfl rfl⟩

/-- C1 counterexample: with window 42 already recorded as
`last_active_window` and still the foreground window — no transition to a new
external window — a single poll iteration nevertheless fires the queued
delivery: it clears the pending slot and injects the paste chord. -/
theorem c1_counterexample :
    sSamePend.lastActiveWindow = some baseEnv.fgHwnd ∧
    track_focus_step baseEnv sSamePend =
      Except.ok { sSamePend with pendingPasteText := none, clipboard := some "hi",
                                 keystrokes := [KeyEvent.pasteChord] } :=
  ⟨rfl, rfl⟩

/-- C1 (amended): the poll loop fires a queued pending delivery on any
iteration whose foreground handle is nonzero, outside the exclusion set and
visible — the handle is never compared with the previously recorded
`last_active_window`, so the delivery also fires while the same external
window stays continuously focused. It still fires at most once per queued
text, because the slot is cleared before pasting: an immediately following
identical iteration injects nothing. -/
theorem c1_fires_without_transition (env : OSEnv) (s : SHState) (text : String)
    (hfg : env.fgRaises = false) (hvis : env.visRaises = false)
    (hpaste : env.pasteRaises = false)
    (h0 : env.fgHwnd ≠ 0) (hmem : env.fgHwnd ∉ s.myWindowHwnds)
    (hpend : s.pendingPasteText = some text) (hne : text ≠ "")
    (hv : env.visible env.fgHwnd = true) :
    ∃ s2, track_focus_step env s = Except.ok s2 ∧
      s2.pendingPasteText = none ∧
      s2.clipboard = some text ∧
      s2.keystrokes = s.keystrokes ++ [KeyEvent.pasteChord] ∧
      ∀ s3, track_focus_step env s2 = Except.ok s3 → s3.keystrokes = s2.keystrokes := by
  have hemp := isEmpty_false_of_ne text hne
  refine ⟨{ invoke_pending_callback env.callbackRaises
      (do_paste env.pasteRaises text false { s with pendingPasteText := none }) with
      lastActiveWindow := some env.fgHwnd }, ?_, ?_, ?_, ?_, ?_⟩
  · simp [track_focus_step, hfg, hpend, hemp, hvis, hv, h0, hmem]
  · simp [invoke_cb_pendingText, do_paste_pendingText]
  · simp [invoke_cb_clipboard, hpaste, do_paste_effects]
  · simp [invoke_cb_keystrokes, hpaste, do_paste_effects]
  · intro s3 hstep
    refine track_focus_step_no_fire env _ s3 ?_ hstep
    simp [invoke_cb_pendingText, do_paste_pendingText]

/-- C1 witness: the amended firing rule instantiated at the counterexample
situation — same window 42 focused before and after, delivery fires once and
not on the following iteration. -/
theorem c1_witness :
    sSamePend.lastActiveWindow = some baseEnv.fgHwnd ∧
    ∃ s2, track_focus_step baseEnv sSamePend = Except.ok s2 ∧
      s2.pendingPasteText = none ∧
      s2.clipboard = some "hi" ∧
      s2.keystrokes = sSamePend.keystrokes ++ [KeyEvent.pasteChord] ∧
      ∀ s3, track_focus_step baseEnv s2 = Except.ok s3 → s3.keystrokes = s2.keystrokes :=
  ⟨rfl, c1_fires_without_transition baseEnv sSamePend "hi" rfl rfl rfl
    (by decide) (by decide) rfl (by decide) rfl⟩

/-- C3 counterexample: the foreground-window query and the visibility query
are not wrapped — an exception from either escapes the loop body
(`Except.error`), terminating the tracker thread. -/
theorem c3_counterexample :
    track_focus_step envFgRaises emptyState = Except.error () ∧
    track_focus_step envVisRaises sSamePend = Except.error () :=
  ⟨rfl, rfl⟩

/-- C3 (amended): exceptions raised inside the paste step and by the pending
callback are swallowed — whenever the foreground query and the visibility
query do not raise, the iteration completes normally for every state and
every behaviour of the remaining oracles; but a raise from the unwrapped
foreground query itself terminates the loop body. -/
theorem c3_exception_boundaries :
    (∀ (env : OSEnv) (s : SHState), env.fgRaises = false → env.visRaises = false →
      ∃ s2, track_focus_step env s = Except.ok s2) ∧
    (∀ (env : OSEnv) (s : SHState), env.fgRaises = true →
      track_focus_step env s = Except.error ()) := by
  constructor
  · intro env s hfg hvis
    obtain ⟨s2, h1, _⟩ := step_ok_total env s hfg hvis
    exact ⟨s2, h1⟩
  · intro env s hfg
    simp [track_focus_step, hfg]

/-- C3 witness: with both the paste internals and the callback raising, an
iteration that fires a queued delivery still completes normally. -/
theorem c3_witness :
    ∃ s2, track_focus_step envInnerRaises sPendCb = Except.ok s2 :=
  c3_exception_boundaries.1 envInnerRaises sPendCb rfl rfl

/-- C4: registering a handle keeps it from ever being recorded. Part one:
after `add_my_window_handle h` and any successful run of poll iterations,
`last_active_window` can be `h` only if it already was `h` before the
registration — no iteration records a registered handle. Part two: an
iteration whose foreground window is a registered self-window leaves the
whole state unchanged, so `get_last_active_window()` still returns the
previously recorded external handle. -/
theorem c4_registered_never_recorded :
    (∀ (h : Nat) (s0 : SHState) (envs : List OSEnv) (s2 : SHState),
      run_loop envs (add_my_window_handle h s0) = Except.ok s2 →
      s2.lastActiveWindow = some h → s0.lastActiveWindow = some h) ∧
    (∀ (env : OSEnv) (s : SHState), env.fgRaises = false →
      env.fgHwnd ∈ s.myWindowHwnds → track_focus_step env s = Except.ok s) := by
  constructor
  · intro h s0 envs s2 hr hl
    have hm : h ∈ (add_my_window_handle h s0).myWindowHwnds ∨ h = 0 := by
      by_cases h0 : h = 0
      · exact Or.inr h0
      · left
        simp [add_my_window_handle, h0]
    have hla : (add_my_window_handle h s0).lastActiveWindow = s0.lastActiveWindow := by
      unfold add_my_window_handle
      split <;> rfl
    have hrun := run_loop_inv h envs (add_my_window_handle h s0) s2 hm hr hl
    rw [hla] at hrun
    exact hrun
  · intro env s hfg hmem
    simp [track_focus_step, hfg, hmem]

/-- C4 witness: register handle 7 on a state that already recorded 7 earlier;
one poll iteration focused on 7 leaves the state untouched, and the invariant
traces the recorded value back to the pre-registration state. -/
theorem c4_witness :
    sLast7.lastActiveWindow = some 7 ∧
    track_focus_step envFg7 (add_my_window_handle 7 sLast7) =
      Except.ok (add_my_window_handle 7 sLast7) :=
  ⟨c4_registered_never_recorded.1 7 sLast7 [envFg7] (add_my_window_handle 7 sLast7) rfl rfl,
   c4_registered_never_recorded.2 envFg7 (add_my_window_handle 7 sLast7) rfl (by decide)⟩

/-- C9 counterexample: foreground handle 5 is reported not visible and not
even a valid window, yet the iteration records it as `last_active_window` —
the loop checks neither validity nor visibility before recording. -/
theorem c9_counterexample :
    envInvisible5.visible 5 = false ∧ envInvisible5.isWindow 5 = false ∧
    track_focus_step envInvisible5 emptyState =
      Except.ok { emptyState with lastActiveWindow := some 5 } :=
  ⟨rfl, rfl, rfl⟩

/-- C9 (amended): on every poll iteration (whose unwrapped OS queries do not
raise) the observed foreground handle is recorded as `last_active_window` if
and only if it is nonzero and not in the exclusion set; window validity is
never consulted, and visibility only gates the firing of a pending delivery,
not the recording. -/
theorem c9_recording_condition (env : OSEnv) (s : SHState)
    (hfg : env.fgRaises = false) (hvis : env.visRaises = false) :
    ∃ s2, track_focus_step env s = Except.ok s2 ∧
      s2.lastActiveWindow =
        (if env.fgHwnd ≠ 0 ∧ env.fgHwnd ∉ s.myWindowHwnds then some env.fgHwnd
         else s.lastActiveWindow) :=
  step_ok_total env s hfg hvis

/-- C9 witness: the recording rule instantiated on a fresh state with
foreground window 42. -/
theorem c9_witness :
    ∃ s2, track_focus_step baseEnv emptyState = Except.ok s2 ∧
      s2.lastActiveWindow =
        (if baseEnv.fgHwnd ≠ 0 ∧ baseEnv.fgHwnd ∉ emptyState.myWindowHwnds
         then some baseEnv.fgHwnd else emptyState.lastActiveWindow) :=
  c9_recording_condition baseEnv emptyState rfl rfl

/-- C6: on the range-based (TextPattern) path with a caret selection present,
the probe's verdict as consumed by `is_likely_insertion`: a zero-unit forward
move yields `false` (at end); a passed-over text whose characters are all
whitespace — including the empty text — yields `false`; a passed-over text
containing some non-whitespace character yields `true`. -/
theorem c6_text_range_probe (env : UIAEnv) (tp : TextPatternInfo)
    (hraise : env.probeRaises = false) (hfoc : env.focused = true)
    (htp : env.textPattern = some tp) (hsel : tp.hasSelection = true) :
    (tp.moved = 0 → is_likely_insertion env = false) ∧
    (tp.moved ≠ 0 → (∀ c ∈ tp.peekText.toList, c.isWhitespace = true) →
      is_likely_insertion env = false) ∧
    (tp.moved ≠ 0 → (∃ c ∈ tp.peekText.toList, c.isWhitespace = false) →
      is_likely_insertion env = true) := by
  have hchk : check_caret_at_end_uia env =
      (if tp.moved = 0 then some true
       else if tp.peekText.isEmpty || pyIsSpace tp.peekText then some true
       else some false) := by
    simp [check_caret_at_end_uia, hraise, hfoc, htp, hsel]
  refine ⟨?_, ?_, ?_⟩
  · intro hm
    simp [is_likely_insertion, hchk, hm]
  · intro hm hall
    have hcond : (tp.peekText.isEmpty || pyIsSpace tp.peekText) = true := by
      by_cases he : tp.peekText.isEmpty
      · simp [he]
      · simp [pyIsSpace, he, List.all_eq_true]
        exact hall
    simp [is_likely_insertion, hchk, hm, hcond]
  · intro hm hex
    obtain ⟨c, hc, hw⟩ := hex
    have he : tp.peekText.isEmpty = false := by
      cases hb : tp.peekText.isEmpty with
      | false => rfl
      | true =>
        rw [(String.isEmpty_iff tp.peekText).mp hb] at hc
        exact absurd hc (by simp)
    have hps : pyIsSpace tp.peekText = false := by
      simp [pyIsSpace, he]
      exact ⟨c, hc, hw⟩
    have hcond : (tp.peekText.isEmpty || pyIsSpace tp.peekText) = false := by
      simp [he, hps]
    simp [is_likely_insertion, hchk, hm, hcond]

/-- C6 witness: a caret with the letter `a` immediately after it is an
insertion context. -/
theorem c6_witness : is_likely_insertion uiaPeekA = true :=
  (c6_text_range_probe uiaPeekA
      { hasSelection := true, moved := 1, peekText := "a" } rfl rfl rfl rfl).2.2
    (by decide) ⟨'a', by decide, by decide⟩

/-- C7: on the flat-value (ValuePattern) path, an empty value yields the
at-end verdict (`is_likely_insertion` returns `false`) and a non-empty value
yields the Unknown verdict (`none`); every Unknown verdict — including a raise
anywhere inside the probe, which is folded to Unknown — resolves to a `false`
return, and the embedding is a total function, so the call never raises. -/
theorem c7_value_probe_unknown_policy :
    (∀ (env : UIAEnv) (v : String), env.probeRaises = false → env.focused = true →
      env.textPattern = none → env.valuePattern = some v →
      (is_likely_insertion env = false ∧
        (v = "" → check_caret_at_end_uia env = some true) ∧
        (v ≠ "" → check_caret_at_end_uia env = none))) ∧
    (∀ env : UIAEnv, check_caret_at_end_uia env = none → is_likely_insertion env = false) ∧
    (∀ env : UIAEnv, env.probeRaises = true → check_caret_at_end_uia env = none) := by
  refine ⟨?_, ?_, ?_⟩
  · intro env v hr hf ht hv
    have hchk : check_caret_at_end_uia env = (if v.isEmpty then some true else none) := by
      simp [check_caret_at_end_uia, hr, hf, ht, hv]
    refine ⟨?_, ?_, ?_⟩
    · by_cases he : v.isEmpty
      · simp [is_likely_insertion, hchk, he]
      · simp [is_likely_insertion, hchk, he]
    · intro hv0
      subst hv0
      simp [hchk, String.isEmpty_iff]
    · intro hvne
      simp [hchk, isEmpty_false_of_ne v hvne]
  · intro env hn
    simp [is_likely_insertion, hn]
  · intro env hr
    simp [check_caret_at_end_uia, hr]

/-- C7 witness: a control exposing only a non-empty flat value gives the
Unknown verdict and a `false` return. -/
theorem c7_witness :
    is_likely_insertion uiaValueAbc = false ∧
    check_caret_at_end_uia uiaValueAbc = none :=
  ⟨(c7_value_probe_unknown_policy.1 uiaValueAbc "abc" rfl rfl rfl rfl).1,
   (c7_value_probe_unknown_policy.1 uiaValueAbc "abc" rfl rfl rfl rfl).2.2 (by decide)⟩

/-- Shape of a deferred `paste_text` call when nothing was ever recorded:
clipboard gets the text, the slot gets the text with no callback, everything
else is untouched. -/
theorem paste_deferred_shape (env : OSEnv) (sd : Bool) (t : String) (s : SHState)
    (hne : t ≠ "") (hla : s.lastActiveWindow = none) :
    (paste_text env t sd s).fst =
      { s with clipboard := some t, pendingPasteText := some t,
               pendingPasteCallback := none } := by
  have hemp := isEmpty_false_of_ne t hne
  have hres : restore_focus_to_last_window env s = false := by
    unfold restore_focus_to_last_window
    rw [hla]
  simp [paste_text, hemp, hres, set_pending_paste, copy_to_clipboard]

/-- Last-write-wins over a whole sequence of deferred `deliver` calls: the
slot ends holding exactly the last text, no queued callback is ever invoked,
and no keystroke is injected during the sequence. -/
theorem deliver_seq_lastwins (env : OSEnv) (sd : Bool) :
    ∀ (ts : List String) (s : SHState) (hne : ts ≠ []),
      s.lastActiveWindow = none → (∀ t ∈ ts, t ≠ "") →
      (deliver_seq env sd ts s).pendingPasteText = some (ts.getLast hne) ∧
      (deliver_seq env sd ts s).invokedCallbacks = s.invokedCallbacks ∧
      (deliver_seq env sd ts s).keystrokes = s.keystrokes := by
  intro ts
  induction ts with
  | nil =>
    intro s hne
    exact absurd rfl hne
  | cons t rest ih =>
    intro s hne hla hval
    have hstep : (paste_text env t sd s).fst =
        { s with clipboard := some t, pendingPasteText := some t,
                 pendingPasteCallback := none } :=
      paste_deferred_shape env sd t s (hval t (by simp)) hla
    have hd : deliver_seq env sd (t :: rest) s =
        deliver_seq env sd rest ((paste_text env t sd s).fst) := by
      simp [deliver_seq]
    by_cases hr : rest = []
    · subst hr
      rw [hd]
      rw [show deliver_seq env sd [] ((paste_text env t sd s).fst) =
        (paste_text env t sd s).fst from rfl]
      rw [hstep]
      exact ⟨rfl, rfl, rfl⟩
    · have hla1 : ((paste_text env t sd s).fst).lastActiveWindow = none := by
        rw [hstep]
        exact hla
      have hval1 : ∀ u ∈ rest, u ≠ "" := fun u hu => hval u (by simp [hu])
      obtain ⟨hp, hi, hk⟩ := ih ((paste_text env t sd s).fst) hr hla1 hval1
      refine ⟨?_, ?_, ?_⟩
      · rw [hd, hp]
        rw [List.getLast_cons hr]
      · rw [hd, hi, hstep]
      · rw [hd, hk, hstep]

/-- C8: the pending slot is structurally a single optional entry, and
`set_pending_paste` is last-write-wins: a second call yields exactly the
state a single call with the new text and callback would, discarding the
prior entry without invoking its callback. Consequently, over any sequence of
deferred `deliver` calls with no tracker activity in between, only the last
call's text remains queued for eventual auto-delivery, and nothing was
auto-delivered during the sequence. -/
theorem c8_slot_last_write_wins :
    (∀ (s : SHState) (t1 t2 : String) (c1 c2 : Option Nat),
      set_pending_paste t2 c2 (set_pending_paste t1 c1 s) = set_pending_paste t2 c2 s ∧
      (set_pending_paste t2 c2 (set_pending_paste t1 c1 s)).pendingPasteText = some t2 ∧
      (set_pending_paste t2 c2 (set_pending_paste t1 c1 s)).pendingPasteCallback = c2 ∧
      (set_pending_paste t2 c2 (set_pending_paste t1 c1 s)).invokedCallbacks =
        s.invokedCallbacks) ∧
    (∀ (env : OSEnv) (sd : Bool) (ts : List String) (s : SHState) (hne : ts ≠ []),
      s.lastActiveWindow = none → (∀ t ∈ ts, t ≠ "") →
      (deliver_seq env sd ts s).pendingPasteText = some (ts.getLast hne) ∧
      (deliver_seq env sd ts s).invokedCallbacks = s.invokedCallbacks ∧
      (deliver_seq env sd ts s).keystrokes = s.keystrokes) := by
  constructor
  · intro s t1 t2 c1 c2
    exact ⟨rfl, rfl, rfl, rfl⟩
  · intro env sd ts s hne hla hval
    exact deliver_seq_lastwins env sd ts s hne hla hval

/-- C8 witness: two deferred deliveries in a row leave exactly the second
text queued, with no callback invoked and no keystroke injected. -/
theorem c8_witness :
    (deliver_seq baseEnv false ["first", "second"] emptyState).pendingPasteText =
      some "second" ∧
    (deliver_seq baseEnv false ["first", "second"] emptyState).invokedCallbacks = [] ∧
    (deliver_seq baseEnv false ["first", "second"] emptyState).keystrokes = [] := by
  have h := c8_slot_last_write_wins.2 baseEnv false ["first", "second"] emptyState
    (by decide) rfl (by decide)
  exact ⟨h.1, h.2.1, h.2.2⟩

end JP
